import Mathlib

/-!
Shallow embedding of the double-pendulum notebook (`final_double_pendulum.ipynb`).

The core of the repository is the class `DoublePendulum` with two methods:

* `dy_dt(self, t, y)` — the right-hand side of the Euler-Lagrange equations
  for the undriven, undamped double pendulum, a pure arithmetic/trigonometric
  function of the state `y = (phi1, phi1_dot, phi2, phi2_dot)` and the five
  physical parameters stored on the instance;
* `solve_ode(self, t_pts, phi1_0, phi1_dot_0, phi2_0, phi2_dot_0, abserr, relerr)`
  — a thin wrapper that builds the initial state, makes exactly one call to
  scipy's `solve_ivp` with `t_span = (t_pts[0], t_pts[-1])` and
  `t_eval = t_pts`, unpacks `solution.y` into four rows and returns them.

Machine floats are modelled as real numbers.  scipy's `solve_ivp` is external
library code, so it is modelled as an abstract method parameter of type
`IVPMethod`: it receives the derivative function and a record of the arguments
`solve_ode` passes, and produces a result record shaped like scipy's return
object (a success flag, the array of output times, and the four rows of the
solution array).  State vectors are 4-tuples of reals.
-/

/-- Physical parameters of a `DoublePendulum` instance, in the order of the
`__init__` signature; `__init__` stores each argument in the corresponding
attribute and does nothing else. -/
structure DoublePendulum where
  L1 : ℝ
  L2 : ℝ
  m1 : ℝ
  m2 : ℝ
  g : ℝ

/-- A state vector `(phi1, phi1_dot, phi2, phi2_dot)`, i.e. the Python list
`y` with `y[0] = phi1`, `y[1] = phi1_dot`, `y[2] = phi2`, `y[3] = phi2_dot`. -/
abbrev State : Type := ℝ × ℝ × ℝ × ℝ

/-- The method `DoublePendulum.dy_dt(self, t, y)`, translated line by line:
`cosp, sinp = cos(y[0]-y[2]), sin(y[0]-y[2])`; `d = m1 + m2*sinp**2`;
the two second derivatives; return `(y[1], phi1_doubledot, y[3], phi2_doubledot)`. -/
noncomputable def DoublePendulum.dy_dt (p : DoublePendulum) (_t : ℝ) (y : State) : State :=
  let cosp := Real.cos (y.1 - y.2.2.1)
  let sinp := Real.sin (y.1 - y.2.2.1)
  let d := p.m1 + p.m2 * sinp ^ 2
  let phi1_doubledot :=
    (p.m2 * p.g * Real.sin y.2.2.1 * cosp
        - p.m2 * sinp * (p.L1 * y.2.1 ^ 2 * cosp + p.L2 * y.2.2.2 ^ 2)
        - (p.m1 + p.m2) * p.g * Real.sin y.1) / (p.L1 * d)
  let phi2_doubledot :=
    ((p.m1 + p.m2) * (p.L1 * y.2.1 ^ 2 * sinp - p.g * Real.sin y.2.2.1
          + p.g * Real.sin y.1 * cosp)
        + p.m2 * p.L2 * y.2.2.2 ^ 2 * sinp * cosp) / (p.L2 * d)
  (y.2.1, phi1_doubledot, y.2.2.2, phi2_doubledot)

/-- The factor `d = (self.m1 + self.m2 * sinp**2)` computed inside `dy_dt`,
with `sinp = sin(phi1 - phi2)`. -/
noncomputable def DoublePendulum.d (p : DoublePendulum) (phi1 phi2 : ℝ) : ℝ :=
  p.m1 + p.m2 * Real.sin (phi1 - phi2) ^ 2

/-- The argument record of one call to scipy's `solve_ivp` (positional
arguments `fun`, `t_span`, `y0` and keywords `t_eval`, `atol`, `rtol`; the
derivative function itself is passed separately to the `IVPMethod`). -/
structure IVPCall where
  t0 : ℝ
  tf : ℝ
  y0 : State
  t_eval : List ℝ
  atol : ℝ
  rtol : ℝ

/-- The shape of scipy's `solve_ivp` return object, restricted to the fields
the notebook reads plus the success flag: `t` is the array of output times
and `y1 … y4` are the four rows of `solution.y`. -/
structure IVPSolution where
  success : Bool
  t : List ℝ
  y1 : List ℝ
  y2 : List ℝ
  y3 : List ℝ
  y4 : List ℝ

/-- scipy's `solve_ivp`, abstracted: it is external library code, so it is a
parameter receiving the derivative function and the call record. -/
abbrev IVPMethod : Type := (ℝ → State → State) → IVPCall → IVPSolution

/-- The single call record `solve_ode` builds: `t_span = (t_pts[0], t_pts[-1])`,
`y0 = [phi1_0, phi1_dot_0, phi2_0, phi2_dot_0]`, `t_eval = t_pts`,
`atol = abserr`, `rtol = relerr`.  (Python raises IndexError on an empty
`t_pts`; the head/last defaults are never relied on below.) -/
def solve_ode_ivp_call (t_pts : List ℝ)
    (phi1_0 phi1_dot_0 phi2_0 phi2_dot_0 abserr relerr : ℝ) : IVPCall :=
  { t0 := t_pts.headI
    tf := t_pts.getLastD 0
    y0 := (phi1_0, phi1_dot_0, phi2_0, phi2_dot_0)
    t_eval := t_pts
    atol := abserr
    rtol := relerr }

/-- The method `DoublePendulum.solve_ode`, translated: build the initial
state, call `solve_ivp` once with the call record above, unpack the four rows
of `solution.y`, and return them.  There is no validation of `t_pts`, no
inspection of `solution.success`, and no error path: the return type has no
failure constructor because the Python body has no raise and no check. -/
noncomputable def DoublePendulum.solve_ode (p : DoublePendulum) (ivp : IVPMethod)
    (t_pts : List ℝ) (phi1_0 phi1_dot_0 phi2_0 phi2_dot_0 abserr relerr : ℝ) :
    List ℝ × List ℝ × List ℝ × List ℝ :=
  let solution :=
    ivp p.dy_dt (solve_ode_ivp_call t_pts phi1_0 phi1_dot_0 phi2_0 phi2_dot_0 abserr relerr)
  (solution.y1, solution.y2, solution.y3, solution.y4)

/-- The sequence of `solve_ivp` invocations performed by one run of
`solve_ode`: the body calls `solve_ivp` exactly once, unconditionally, on
every control path. -/
def solve_ode_calls (t_pts : List ℝ)
    (phi1_0 phi1_dot_0 phi2_0 phi2_dot_0 abserr relerr : ℝ) : List IVPCall :=
  [solve_ode_ivp_call t_pts phi1_0 phi1_dot_0 phi2_0 phi2_dot_0 abserr relerr]

/-- Modelled from the spec: the validity predicate on a requested time grid
(`t_points` must have at least 2 entries and be strictly increasing); the
spec's claimed `InvalidInput` rejection is compared against what `solve_ode`
actually does. -/
def validGrid (t_pts : List ℝ) : Prop :=
  2 ≤ t_pts.length ∧ t_pts.Chain' (· < ·)

/-- `dy_dt` as a method call with the receiver's post-state made explicit:
the Python body assigns to no attribute of `self`, so the post-state is the
receiver unchanged. -/
noncomputable def DoublePendulum.dy_dt_st (p : DoublePendulum) (t : ℝ) (y : State) :
    State × DoublePendulum :=
  (p.dy_dt t y, p)

/-- `solve_ode` as a method call with the receiver's post-state made explicit:
the Python body assigns to no attribute of `self` (its locals `y`, `solution`
and the unpacked rows are function-local), so the post-state is the receiver
unchanged. -/
noncomputable def DoublePendulum.solve_ode_st (p : DoublePendulum) (ivp : IVPMethod)
    (t_pts : List ℝ) (phi1_0 phi1_dot_0 phi2_0 phi2_dot_0 abserr relerr : ℝ) :
    (List ℝ × List ℝ × List ℝ × List ℝ) × DoublePendulum :=
  (p.solve_ode ivp t_pts phi1_0 phi1_dot_0 phi2_0 phi2_dot_0 abserr relerr, p)

/-- Componentwise negation of a state vector. -/
def negState (y : State) : State :=
  (-y.1, -y.2.1, -y.2.2.1, -y.2.2.2)

/-- C1: for every state `(phi1, phi1_dot, phi2, phi2_dot)` and parameters,
`dy_dt t y` returns `(phi1_dot, phi1_ddot, phi2_dot, phi2_ddot)` where, with
`cosp = cos(phi1-phi2)`, `sinp = sin(phi1-phi2)`, `d = m1 + m2*sinp^2`,
`phi1_ddot = (m2*g*sin(phi2)*cosp - m2*sinp*(L1*phi1_dot^2*cosp + L2*phi2_dot^2)
- (m1+m2)*g*sin(phi1)) / (L1*d)` and
`phi2_ddot = ((m1+m2)*(L1*phi1_dot^2*sinp - g*sin(phi2) + g*sin(phi1)*cosp)
+ m2*L2*phi2_dot^2*sinp*cosp) / (L2*d)`. -/
theorem dy_dt_formula (p : DoublePendulum) (t phi1 phi1_dot phi2 phi2_dot : ℝ) :
    p.dy_dt t (phi1, phi1_dot, phi2, phi2_dot) =
      (phi1_dot,
        (p.m2 * p.g * Real.sin phi2 * Real.cos (phi1 - phi2)
            - p.m2 * Real.sin (phi1 - phi2)
              * (p.L1 * phi1_dot ^ 2 * Real.cos (phi1 - phi2) + p.L2 * phi2_dot ^ 2)
            - (p.m1 + p.m2) * p.g * Real.sin phi1)
          / (p.L1 * (p.m1 + p.m2 * Real.sin (phi1 - phi2) ^ 2)),
        phi2_dot,
        ((p.m1 + p.m2)
              * (p.L1 * phi1_dot ^ 2 * Real.sin (phi1 - phi2) - p.g * Real.sin phi2
                + p.g * Real.sin phi1 * Real.cos (phi1 - phi2))
            + p.m2 * p.L2 * phi2_dot ^ 2 * Real.sin (phi1 - phi2) * Real.cos (phi1 - phi2))
          / (p.L2 * (p.m1 + p.m2 * Real.sin (phi1 - phi2) ^ 2))) := by
  simp only [DoublePendulum.dy_dt]

/-- C2: for positive masses and lengths, the factor `d = m1 + m2*sin(phi1-phi2)^2`
computed inside `dy_dt` satisfies `m1 <= d` and `0 < d`, so both denominators
`L1*d` and `L2*d` of the divisions in `dy_dt` are strictly positive. -/
theorem dy_dt_denominators_pos (p : DoublePendulum) (phi1 phi2 : ℝ)
    (hm1 : 0 < p.m1) (hm2 : 0 < p.m2) (hL1 : 0 < p.L1) (hL2 : 0 < p.L2) :
    p.m1 ≤ p.d phi1 phi2 ∧ 0 < p.d phi1 phi2 ∧
      0 < p.L1 * p.d phi1 phi2 ∧ 0 < p.L2 * p.d phi1 phi2 := by
  have hs : 0 ≤ p.m2 * Real.sin (phi1 - phi2) ^ 2 :=
    mul_nonneg hm2.le (sq_nonneg _)
  have hle : p.m1 ≤ p.d phi1 phi2 := le_add_of_nonneg_right hs
  have hd : 0 < p.d phi1 phi2 := lt_of_lt_of_le hm1 hle
  exact ⟨hle, hd, mul_pos hL1 hd, mul_pos hL2 hd⟩

/-- Witness for C2 at unit parameters and the zero state: the factor there
evaluates to 1. -/
theorem dy_dt_denominators_pos_witness :
    (1 : ℝ) ≤ DoublePendulum.d ⟨1, 1, 1, 1, 1⟩ 0 0 ∧
      (0 : ℝ) < DoublePendulum.d ⟨1, 1, 1, 1, 1⟩ 0 0 ∧
      (0 : ℝ) < 1 * DoublePendulum.d ⟨1, 1, 1, 1, 1⟩ 0 0 ∧
      (0 : ℝ) < 1 * DoublePendulum.d ⟨1, 1, 1, 1, 1⟩ 0 0 :=
  dy_dt_denominators_pos ⟨1, 1, 1, 1, 1⟩ 0 0
    (by norm_num) (by norm_num) (by norm_num) (by norm_num)

/-- C8: the derivative does not depend on its time argument: the system is
autonomous and `t` is accepted only for the solver interface. -/
theorem dy_dt_time_independent (p : DoublePendulum) (t t' : ℝ) (y : State) :
    p.dy_dt t y = p.dy_dt t' y := by
  rfl

/-- C10: the derivative is odd under negation of the full state: negating
both angles and both angular velocities negates all four components of
`dy_dt`'s output. -/
theorem dy_dt_odd (p : DoublePendulum) (t : ℝ) (y : State) :
    p.dy_dt t (negState y) = negState (p.dy_dt t y) := by
  obtain ⟨p1, v1, p2, v2⟩ := y
  simp only [DoublePendulum.dy_dt, negState, Prod.mk.injEq]
  rw [show -p1 - -p2 = -(p1 - p2) by ring]
  simp only [Real.cos_neg, Real.sin_neg]
  refine ⟨trivial, ?_, trivial, ?_⟩ <;> ring

/-- C3 counterexample: the grid consisting of the single time 0 has fewer than
2 entries, yet solve_ode still performs its one unconditional solve_ivp call,
passing the invalid grid straight through as t_eval: integration is attempted
and no InvalidInput rejection happens (no such path exists in the body). -/
theorem solve_ode_no_input_validation :
    ¬ validGrid [(0 : ℝ)] ∧
      solve_ode_calls [(0 : ℝ)] (Real.pi / 2) 0 Real.pi 0 1e-10 1e-10 =
        [solve_ode_ivp_call [(0 : ℝ)] (Real.pi / 2) 0 Real.pi 0 1e-10 1e-10] ∧
      (solve_ode_ivp_call [(0 : ℝ)] (Real.pi / 2) 0 Real.pi 0 1e-10 1e-10).t_eval =
        [(0 : ℝ)] := by
  refine ⟨?_, rfl, rfl⟩
  simp [validGrid]

/-- C3 amended: solve_ode performs no validation of its time grid: for every
non-empty t_pts, valid or not (on the empty grid Python instead raises
IndexError at the indexing t_pts[0], before the solve_ivp call), it makes
exactly one solve_ivp call, passes t_pts through unchanged as t_eval, and
returns the unpacked rows of whatever the solver produces; it never fails
with an InvalidInput signal. -/
theorem solve_ode_always_integrates (p : DoublePendulum) (ivp : IVPMethod)
    (t_pts : List ℝ) (a b c d e f : ℝ) (hne : t_pts ≠ []) :
    solve_ode_calls t_pts a b c d e f = [solve_ode_ivp_call t_pts a b c d e f] ∧
    (solve_ode_ivp_call t_pts a b c d e f).t_eval = t_pts ∧
    p.solve_ode ivp t_pts a b c d e f =
      ((ivp p.dy_dt (solve_ode_ivp_call t_pts a b c d e f)).y1,
        (ivp p.dy_dt (solve_ode_ivp_call t_pts a b c d e f)).y2,
        (ivp p.dy_dt (solve_ode_ivp_call t_pts a b c d e f)).y3,
        (ivp p.dy_dt (solve_ode_ivp_call t_pts a b c d e f)).y4) :=
  ⟨rfl, rfl, rfl⟩

/-- A trivial solver run used to instantiate the abstract solver parameter at
concrete points: it succeeds immediately with empty output rows. -/
def trivialMethod : IVPMethod :=
  fun _dy _c => { success := true, t := [], y1 := [], y2 := [], y3 := [], y4 := [] }

/-- Witness for C3 amended at the non-empty (but invalid, single-entry) grid
consisting of the time 0 alone. -/
theorem solve_ode_always_integrates_witness :
    solve_ode_calls [(0 : ℝ)] 1 0 1 0 1e-10 1e-10 =
        [solve_ode_ivp_call [(0 : ℝ)] 1 0 1 0 1e-10 1e-10] ∧
      (solve_ode_ivp_call [(0 : ℝ)] 1 0 1 0 1e-10 1e-10).t_eval = [(0 : ℝ)] ∧
      DoublePendulum.solve_ode ⟨1, 1, 1, 1, 1⟩ trivialMethod [(0 : ℝ)] 1 0 1 0 1e-10 1e-10 =
        ((trivialMethod (DoublePendulum.dy_dt ⟨1, 1, 1, 1, 1⟩)
            (solve_ode_ivp_call [(0 : ℝ)] 1 0 1 0 1e-10 1e-10)).y1,
          (trivialMethod (DoublePendulum.dy_dt ⟨1, 1, 1, 1, 1⟩)
            (solve_ode_ivp_call [(0 : ℝ)] 1 0 1 0 1e-10 1e-10)).y2,
          (trivialMethod (DoublePendulum.dy_dt ⟨1, 1, 1, 1, 1⟩)
            (solve_ode_ivp_call [(0 : ℝ)] 1 0 1 0 1e-10 1e-10)).y3,
          (trivialMethod (DoublePendulum.dy_dt ⟨1, 1, 1, 1, 1⟩)
            (solve_ode_ivp_call [(0 : ℝ)] 1 0 1 0 1e-10 1e-10)).y4) :=
  solve_ode_always_integrates ⟨1, 1, 1, 1, 1⟩ trivialMethod [(0 : ℝ)] 1 0 1 0 1e-10 1e-10
    (by simp)

/-- A solve_ivp run that fails: it reports success = false and reaches only
the first requested time, returning one-sample rows. -/
def failMethod : IVPMethod :=
  fun _dy _c => { success := false, t := [0], y1 := [1], y2 := [2], y3 := [3], y4 := [4] }

/-- C4 counterexample: on the valid grid of times 0, 1, 2, with a solver run
that fails after reaching only the first requested time, solve_ode silently
returns the truncated one-sample rows as an ordinary result; no
IntegrationFailure signal is raised (no such path exists in the body). -/
theorem solve_ode_silent_truncation :
    validGrid [(0 : ℝ), 1, 2] ∧
    (failMethod (DoublePendulum.dy_dt ⟨1, 1, 1, 1, 1⟩)
        (solve_ode_ivp_call [(0 : ℝ), 1, 2] 1 0 3 0 1e-10 1e-10)).success = false ∧
    DoublePendulum.solve_ode ⟨1, 1, 1, 1, 1⟩ failMethod [(0 : ℝ), 1, 2] 1 0 3 0 1e-10 1e-10 =
      ([1], [2], [3], [4]) ∧
    ([(1 : ℝ)]).length ≠ ([(0 : ℝ), 1, 2]).length := by
  refine ⟨?_, rfl, rfl, by simp⟩
  constructor
  · simp
  · norm_num [List.chain'_cons, List.chain'_singleton]

/-- C4 amended: solve_ode never inspects the solver's success flag: even when
the solve_ivp run reports failure, solve_ode returns the (possibly truncated)
solution rows as an ordinary value, with no IntegrationFailure signal. -/
theorem solve_ode_ignores_failure (p : DoublePendulum) (ivp : IVPMethod)
    (t_pts : List ℝ) (a b c d e f : ℝ)
    (hfail : (ivp p.dy_dt (solve_ode_ivp_call t_pts a b c d e f)).success = false) :
    p.solve_ode ivp t_pts a b c d e f =
      ((ivp p.dy_dt (solve_ode_ivp_call t_pts a b c d e f)).y1,
        (ivp p.dy_dt (solve_ode_ivp_call t_pts a b c d e f)).y2,
        (ivp p.dy_dt (solve_ode_ivp_call t_pts a b c d e f)).y3,
        (ivp p.dy_dt (solve_ode_ivp_call t_pts a b c d e f)).y4) :=
  rfl

/-- Witness for C4 amended at the failing run above. -/
theorem solve_ode_ignores_failure_witness :
    DoublePendulum.solve_ode ⟨1, 1, 1, 1, 1⟩ failMethod [(0 : ℝ), 1, 2] 1 0 3 0 1e-10 1e-10 =
      ((failMethod (DoublePendulum.dy_dt ⟨1, 1, 1, 1, 1⟩)
          (solve_ode_ivp_call [(0 : ℝ), 1, 2] 1 0 3 0 1e-10 1e-10)).y1,
        (failMethod (DoublePendulum.dy_dt ⟨1, 1, 1, 1, 1⟩)
          (solve_ode_ivp_call [(0 : ℝ), 1, 2] 1 0 3 0 1e-10 1e-10)).y2,
        (failMethod (DoublePendulum.dy_dt ⟨1, 1, 1, 1, 1⟩)
          (solve_ode_ivp_call [(0 : ℝ), 1, 2] 1 0 3 0 1e-10 1e-10)).y3,
        (failMethod (DoublePendulum.dy_dt ⟨1, 1, 1, 1, 1⟩)
          (solve_ode_ivp_call [(0 : ℝ), 1, 2] 1 0 3 0 1e-10 1e-10)).y4) :=
  solve_ode_ignores_failure ⟨1, 1, 1, 1, 1⟩ failMethod [(0 : ℝ), 1, 2] 1 0 3 0 1e-10 1e-10 rfl

/-- C5: for a strictly increasing grid of at least two points, when the
solve_ivp run succeeds and, per scipy's contract for a successful run with
t_eval set, reports its output times equal to t_eval with the four solution
rows of matching length, solve_ode returns exactly those four rows: one sample
per requested time, aligned in order with t_pts, the time column being
t_eval = t_pts itself, passed through unchanged. -/
theorem solve_ode_output_shape (p : DoublePendulum) (ivp : IVPMethod)
    (t_pts : List ℝ) (a b c d e f : ℝ) (sol : IVPSolution)
    (hsol : ivp p.dy_dt (solve_ode_ivp_call t_pts a b c d e f) = sol)
    (hN : 2 ≤ t_pts.length) (hinc : t_pts.Chain' (· < ·))
    (hs : sol.success = true) (ht : sol.t = t_pts)
    (h1 : sol.y1.length = sol.t.length) (h2 : sol.y2.length = sol.t.length)
    (h3 : sol.y3.length = sol.t.length) (h4 : sol.y4.length = sol.t.length) :
    p.solve_ode ivp t_pts a b c d e f = (sol.y1, sol.y2, sol.y3, sol.y4) ∧
    (solve_ode_ivp_call t_pts a b c d e f).t_eval = t_pts ∧
    sol.y1.length = t_pts.length ∧ sol.y2.length = t_pts.length ∧
    sol.y3.length = t_pts.length ∧ sol.y4.length = t_pts.length := by
  subst hsol
  refine ⟨rfl, rfl, ?_, ?_, ?_, ?_⟩
  · rw [h1, ht]
  · rw [h2, ht]
  · rw [h3, ht]
  · rw [h4, ht]

/-- A successful solve_ivp run: it reports success = true, echoes the
requested evaluation times, and returns four rows with one entry (zero) per
requested time. -/
def okMethod : IVPMethod :=
  fun _dy c =>
    { success := true
      t := c.t_eval
      y1 := c.t_eval.map (fun _ => 0)
      y2 := c.t_eval.map (fun _ => 0)
      y3 := c.t_eval.map (fun _ => 0)
      y4 := c.t_eval.map (fun _ => 0) }

/-- Witness for C5 on the grid of times 0 and 1 with the successful run above. -/
theorem solve_ode_output_shape_witness :
    DoublePendulum.solve_ode ⟨1, 1, 1, 1, 1⟩ okMethod [(0 : ℝ), 1]
        (Real.pi / 2) 0 Real.pi 0 1e-10 1e-10 =
      ([(0 : ℝ), 0], [(0 : ℝ), 0], [(0 : ℝ), 0], [(0 : ℝ), 0]) ∧
    (solve_ode_ivp_call [(0 : ℝ), 1] (Real.pi / 2) 0 Real.pi 0 1e-10 1e-10).t_eval =
      [(0 : ℝ), 1] ∧
    ([(0 : ℝ), 0]).length = ([(0 : ℝ), 1]).length ∧
    ([(0 : ℝ), 0]).length = ([(0 : ℝ), 1]).length ∧
    ([(0 : ℝ), 0]).length = ([(0 : ℝ), 1]).length ∧
    ([(0 : ℝ), 0]).length = ([(0 : ℝ), 1]).length :=
  solve_ode_output_shape ⟨1, 1, 1, 1, 1⟩ okMethod [(0 : ℝ), 1]
    (Real.pi / 2) 0 Real.pi 0 1e-10 1e-10
    ⟨true, [0, 1], [0, 0], [0, 0], [0, 0], [0, 0]⟩ rfl
    (by norm_num) (by norm_num [List.chain'_cons, List.chain'_singleton])
    rfl rfl rfl rfl rfl rfl

/-- C6: dy_dt and solve_ode are deterministic functions of their arguments and
the five parameter fields alone: two instances with equal parameters produce
equal dy_dt outputs and equal solve_ode outputs on identical arguments
(equality of the real-valued model results is the model of bit-identity). -/
theorem solve_deterministic (p q : DoublePendulum) (ivp : IVPMethod)
    (t : ℝ) (y : State) (t_pts : List ℝ) (a b c d e f : ℝ)
    (hL1 : p.L1 = q.L1) (hL2 : p.L2 = q.L2) (hm1 : p.m1 = q.m1)
    (hm2 : p.m2 = q.m2) (hg : p.g = q.g) :
    p.dy_dt t y = q.dy_dt t y ∧
      p.solve_ode ivp t_pts a b c d e f = q.solve_ode ivp t_pts a b c d e f := by
  obtain ⟨pL1, pL2, pm1, pm2, pg⟩ := p
  obtain ⟨qL1, qL2, qm1, qm2, qg⟩ := q
  cases hL1
  cases hL2
  cases hm1
  cases hm2
  cases hg
  exact ⟨rfl, rfl⟩

/-- Witness for C6 at unit parameters, the zero state, and a trivial solver. -/
theorem solve_deterministic_witness :
    DoublePendulum.dy_dt ⟨1, 1, 1, 1, 1⟩ 0 (0, 0, 0, 0) =
        DoublePendulum.dy_dt ⟨1, 1, 1, 1, 1⟩ 0 (0, 0, 0, 0) ∧
      DoublePendulum.solve_ode ⟨1, 1, 1, 1, 1⟩
          (fun _dy _c => IVPSolution.mk true [] [] [] [] []) [(0 : ℝ), 1] 1 0 1 0 1e-10 1e-10 =
        DoublePendulum.solve_ode ⟨1, 1, 1, 1, 1⟩
          (fun _dy _c => IVPSolution.mk true [] [] [] [] []) [(0 : ℝ), 1] 1 0 1 0 1e-10 1e-10 :=
  solve_deterministic ⟨1, 1, 1, 1, 1⟩ ⟨1, 1, 1, 1, 1⟩
    (fun _dy _c => IVPSolution.mk true [] [] [] [] []) 0 (0, 0, 0, 0)
    [(0 : ℝ), 1] 1 0 1 0 1e-10 1e-10 rfl rfl rfl rfl rfl

/-- C7: the five physical parameters are set at construction and no method
call mutates them: after any dy_dt or solve_ode invocation the receiver's
post-state equals the pre-state in every field, and since the instance
carries exactly the five parameter fields, no other internal state persists
between calls. -/
theorem methods_preserve_params (p : DoublePendulum) (ivp : IVPMethod)
    (t : ℝ) (y : State) (t_pts : List ℝ) (a b c d e f : ℝ) :
    (p.dy_dt_st t y).2 = p ∧
    (p.solve_ode_st ivp t_pts a b c d e f).2 = p ∧
    (p.dy_dt_st t y).2.L1 = p.L1 ∧ (p.dy_dt_st t y).2.L2 = p.L2 ∧
    (p.dy_dt_st t y).2.m1 = p.m1 ∧ (p.dy_dt_st t y).2.m2 = p.m2 ∧
    (p.dy_dt_st t y).2.g = p.g ∧
    (p.solve_ode_st ivp t_pts a b c d e f).2.L1 = p.L1 ∧
    (p.solve_ode_st ivp t_pts a b c d e f).2.L2 = p.L2 ∧
    (p.solve_ode_st ivp t_pts a b c d e f).2.m1 = p.m1 ∧
    (p.solve_ode_st ivp t_pts a b c d e f).2.m2 = p.m2 ∧
    (p.solve_ode_st ivp t_pts a b c d e f).2.g = p.g :=
  ⟨rfl, rfl, rfl, rfl, rfl, rfl, rfl, rfl, rfl, rfl, rfl, rfl⟩
